import Mathlib

/-!
Verification development for the Monster-group reference module
(`monster_group.py`, `monster_utils.py`).

The Python code is shallowly embedded: the fixed fact tables become Lean
list/structure literals, methods on `MonsterGroup` become explicit
state-passing functions `MonsterGroup → α × MonsterGroup` (each Python method
reads `self` and never assigns to it, so the returned state is the input
state), and Python `None` results become `Option`.  Python's
arbitrary-precision integers are `ℕ`/`ℤ`.
-/

namespace Monster

/-- The stored order literal `MonsterGroup.ORDER` from `monster_group.py`. -/
def ORDER : ℕ := 808017424794512875886459904961710757005754368000000000

/-- The dict literal returned by `MonsterGroup.get_factorization`, as an
association list in the dict's insertion order (prime, exponent). -/
def factorizationTable : List (ℕ × ℕ) :=
  [(2, 46), (3, 20), (5, 9), (7, 6), (11, 2), (13, 3), (17, 1), (19, 1),
   (23, 1), (29, 1), (31, 1), (41, 1), (47, 1), (59, 1), (71, 1)]

/-- Dict lookup on an association list (first matching key), as Python
`d[k]` on the dicts modelled here. -/
def lookup (l : List (ℕ × ℕ)) (k : ℕ) : Option ℕ :=
  (l.find? (fun pe => pe.1 == k)).map Prod.snd

/-- The `MonsterGroup` instance state set by `__init__`: `_generators`,
`_name`, `_symbol`. -/
structure MonsterGroup where
  generators : Option (List String) := none
  name : String := "Monster"
  symbol : String := "M"
deriving DecidableEq

namespace MonsterGroup

/-- `MonsterGroup.order` property: returns the class constant `ORDER`. -/
def order (g : MonsterGroup) : ℕ × MonsterGroup := (ORDER, g)

/-- `MonsterGroup.name` property. -/
def nameProp (g : MonsterGroup) : String × MonsterGroup := (g.name, g)

/-- `MonsterGroup.symbol` property. -/
def symbolProp (g : MonsterGroup) : String × MonsterGroup := (g.symbol, g)

/-- `MonsterGroup.is_sporadic`. -/
def is_sporadic (g : MonsterGroup) : Bool × MonsterGroup := (true, g)

/-- `MonsterGroup.is_simple`. -/
def is_simple (g : MonsterGroup) : Bool × MonsterGroup := (true, g)

/-- `MonsterGroup.get_factorization`: returns the dict literal. -/
def get_factorization (g : MonsterGroup) : List (ℕ × ℕ) × MonsterGroup :=
  (factorizationTable, g)

/-- `MonsterGroup.verify_order`: starts an accumulator at 1, multiplies in
`prime ** power` for each entry of the factorization in iteration order, and
compares with `ORDER`. -/
def verify_order (g : MonsterGroup) : Bool × MonsterGroup :=
  let (factorization, g') := get_factorization g
  let calculated_order := factorization.foldl (fun acc pe => acc * pe.1 ^ pe.2) 1
  (calculated_order == ORDER, g')

/-- `MonsterGroup.get_maximal_subgroups_info`: the fixed list of 10 labels. -/
def get_maximal_subgroups_info (g : MonsterGroup) : List String × MonsterGroup :=
  (["2^1+24.Co1 (Baby Monster normalizer)",
    "2^2+11+22.(M24 × S3)",
    "3^1+12.2.Suz.2",
    "2^5+10+20.(S3 × L5(2))",
    "5^1+6.2.J2.4",
    "7^1+4.(3 × 2S7)",
    "11^1+2.(5 × 2S5)",
    "13^1+2.(3 × 4S4)",
    "(D10 × HN).2",
    "2^10+16.O10^+(2)"], g)

/-- `MonsterGroup.get_conjugacy_classes_count`. -/
def get_conjugacy_classes_count (g : MonsterGroup) : ℕ × MonsterGroup := (194, g)

/-- An entry of the Python list `[196884, 21493760, 864299970, ...]`: the
literal `...` in the source is Python's `Ellipsis` object, kept as a value. -/
inductive JInvariantEntry where
  | coeff (n : ℕ)
  | ellipsis
deriving DecidableEq

/-- A value of the dict returned by `get_character_table_info`. -/
inductive CharTableValue where
  | int (n : ℕ)
  | bool (b : Bool)
  | coeffList (l : List JInvariantEntry)
deriving DecidableEq

/-- The dict literal returned by `MonsterGroup.get_character_table_info`,
as an association list in insertion order. -/
def characterTableDict : List (String × CharTableValue) :=
  [("irreducible_representations", .int 194),
   ("smallest_faithful_representation", .int 196883),
   ("moonshine_connection", .bool true),
   ("j_invariant_coefficients",
     .coeffList [.coeff 196884, .coeff 21493760, .coeff 864299970, .ellipsis])]

/-- `MonsterGroup.get_character_table_info`. -/
def get_character_table_info (g : MonsterGroup) :
    List (String × CharTableValue) × MonsterGroup :=
  (characterTableDict, g)

end MonsterGroup

/-- Dict lookup on the character-table dict. -/
def lookupCT (l : List (String × MonsterGroup.CharTableValue)) (k : String) :
    Option MonsterGroup.CharTableValue :=
  (l.find? (fun kv => kv.1 == k)).map Prod.snd

/-- Folding multiplication of `p ^ e` over a list is the product of the
mapped list. -/
theorem foldl_mul_pow (l : List (ℕ × ℕ)) :
    l.foldl (fun acc pe => acc * pe.1 ^ pe.2) 1 =
      (l.map (fun pe => pe.1 ^ pe.2)).prod := by
  rw [List.prod_eq_foldl, List.foldl_map]

/-- C1: `verify_order()` multiplies `prime ** power` over the factorization
table with exact integer arithmetic and compares with `ORDER`; the product of
the fixed table equals the stored literal, so it returns `True`, and folding
the product over any permutation of the table's entries gives the same
result. -/
theorem verify_order_correct :
    (∀ g : MonsterGroup,
      (g.verify_order).1 =
        ((factorizationTable.map (fun pe => pe.1 ^ pe.2)).prod == ORDER)) ∧
    (factorizationTable.map (fun pe => pe.1 ^ pe.2)).prod =
      808017424794512875886459904961710757005754368000000000 ∧
    (∀ g : MonsterGroup, (g.verify_order).1 = true) ∧
    (∀ l : List (ℕ × ℕ), l.Perm factorizationTable →
      l.foldl (fun acc pe => acc * pe.1 ^ pe.2) 1 = ORDER) := by
  have hprod : (factorizationTable.map (fun pe => pe.1 ^ pe.2)).prod =
      808017424794512875886459904961710757005754368000000000 := by decide
  refine ⟨?_, hprod, ?_, ?_⟩
  · intro g
    simp only [MonsterGroup.verify_order, MonsterGroup.get_factorization,
      foldl_mul_pow]
  · intro g
    simp only [MonsterGroup.verify_order, MonsterGroup.get_factorization,
      foldl_mul_pow, hprod]
    decide
  · intro l hl
    rw [foldl_mul_pow, (hl.map (fun pe => pe.1 ^ pe.2)).prod_eq, hprod]
    rfl

/-- Witness for C1: the hypothesis-bearing part applied to the reversed
table, a nontrivial permutation of the dict's iteration order. -/
theorem verify_order_correct_witness :
    factorizationTable.reverse.foldl (fun acc pe => acc * pe.1 ^ pe.2) 1 =
      ORDER :=
  verify_order_correct.2.2.2 factorizationTable.reverse
    (factorizationTable.reverse_perm)

/-- C2: `get_factorization()` has exactly the 15 keys
2, 3, 5, 7, 11, 13, 17, 19, 23, 29, 31, 41, 47, 59, 71 (in that iteration
order, hence as a key set), every exponent is positive, and the exponents of
2, 3, 5, 7 are 46, 20, 9, 6. -/
theorem get_factorization_keys :
    (∀ g : MonsterGroup,
      ((g.get_factorization).1.map Prod.fst =
          [2, 3, 5, 7, 11, 13, 17, 19, 23, 29, 31, 41, 47, 59, 71] ∧
        (g.get_factorization).1.all (fun pe => 0 < pe.2) ∧
        lookup (g.get_factorization).1 2 = some 46 ∧
        lookup (g.get_factorization).1 3 = some 20 ∧
        lookup (g.get_factorization).1 5 = some 9 ∧
        lookup (g.get_factorization).1 7 = some 6)) := by
  intro g
  exact ⟨rfl, rfl, rfl, rfl, rfl, rfl⟩

/-! ## Element descriptor (`MonsterElement`) -/

/-- The state of a `MonsterElement` after `__init__`: `element_id` and
the `group` field `self.group = MonsterGroup()`. -/
structure MonsterElement where
  element_id : String
  group : MonsterGroup
deriving DecidableEq

/-- `MonsterElement.__init__`: `self.element_id = element_id or "e"` —
Python `or` falls through to `"e"` when the argument is `None` or the empty
string (both falsy). -/
def MonsterElement.init (element_id : Option String) : MonsterElement :=
  { element_id :=
      match element_id with
      | none => "e"
      | some s => if s = "" then "e" else s,
    group := {} }

/-- `MonsterElement.is_identity` property. -/
def MonsterElement.is_identity (e : MonsterElement) : Bool :=
  e.element_id == "e"

/-- `MonsterElement.order`: `1` for the identity, otherwise Python `None`
("would require actual computation"), embedded as `Option ℕ`. -/
def MonsterElement.orderOf (e : MonsterElement) : Option ℕ :=
  if e.is_identity then some 1 else none

/-- `MonsterElement.conjugacy_class`: `"1A"` for the identity, otherwise
`None`. -/
def MonsterElement.conjugacy_class (e : MonsterElement) : Option String :=
  if e.is_identity then some "1A" else none

/-- C6: a constructed element (absent or empty identifier defaulting to
`"e"`) is the identity iff its stored identifier is `"e"`; the identity has
order `some 1` and class `some "1A"`; a non-identity element gets `none`
(Python `None`, the not-computed value) from both queries, and `none` is
distinct from `some 0` (and, being an `Option` value, is a result, not an
error). -/
theorem element_identity_semantics :
    (MonsterElement.init none).element_id = "e" ∧
    (MonsterElement.init (some "")).element_id = "e" ∧
    ∀ id : Option String,
      ((MonsterElement.init id).is_identity = true ↔
        (MonsterElement.init id).element_id = "e") ∧
      ((MonsterElement.init id).is_identity = true →
        (MonsterElement.init id).orderOf = some 1 ∧
        (MonsterElement.init id).conjugacy_class = some "1A") ∧
      ((MonsterElement.init id).is_identity = false →
        (MonsterElement.init id).orderOf = none ∧
        (MonsterElement.init id).conjugacy_class = none ∧
        (MonsterElement.init id).orderOf ≠ some 0) := by
  refine ⟨rfl, rfl, fun id => ⟨?_, ?_, ?_⟩⟩
  · simp [MonsterElement.is_identity]
  · intro h
    simp only [MonsterElement.orderOf, MonsterElement.conjugacy_class, h]
    exact ⟨rfl, rfl⟩
  · intro h
    simp only [MonsterElement.orderOf, MonsterElement.conjugacy_class, h]
    exact ⟨rfl, rfl, by simp⟩

/-- Witness for C6 at the concrete identifiers of the spec: the default
construction is the identity with order 1 and class "1A", and `"g1"` is
non-identity with both queries not computed. -/
theorem element_identity_semantics_witness :
    (MonsterElement.init none).orderOf = some 1 ∧
    (MonsterElement.init none).conjugacy_class = some "1A" ∧
    (MonsterElement.init (some "g1")).is_identity = false ∧
    (MonsterElement.init (some "g1")).orderOf = none ∧
    (MonsterElement.init (some "g1")).conjugacy_class = none ∧
    (MonsterElement.init (some "g1")).orderOf ≠ some 0 := by
  have hid := (element_identity_semantics.2.2 none).2.1 (by decide)
  have hg := (element_identity_semantics.2.2 (some "g1")).2.2 (by decide)
  exact ⟨hid.1, hid.2, by decide, hg.1, hg.2.1, hg.2.2⟩

/-! ## Character table (C5) -/

/-- The Prop asserted by C5 about the character-table record: its key set
is exactly the three summary fields (no others), with the stated values. -/
def charTableExactlyThreeFields : Prop :=
  (∀ k, k ∈ MonsterGroup.characterTableDict.map Prod.fst ↔
    k ∈ ["irreducible_representations", "smallest_faithful_representation",
         "moonshine_connection"]) ∧
  lookupCT MonsterGroup.characterTableDict "irreducible_representations" =
    some (.int 194) ∧
  lookupCT MonsterGroup.characterTableDict "smallest_faithful_representation" =
    some (.int 196883) ∧
  lookupCT MonsterGroup.characterTableDict "moonshine_connection" =
    some (.bool true)

/-- C5 counterexample: the dict returned by `get_character_table_info` is
not a record with exactly the three summary fields — it also carries the key
`"j_invariant_coefficients"`, so the claimed key set is wrong. -/
theorem char_table_not_exactly_three_fields :
    ¬ charTableExactlyThreeFields := by
  intro h
  have h4 := (h.1 "j_invariant_coefficients").mp (by decide)
  simp at h4

/-- C5 amended: `get_character_table_info()` returns the fixed dict whose
keys, in order, are the three summary fields plus `"j_invariant_coefficients"`
(the leading j-invariant coefficients with a trailing ellipsis); the three
summary fields have the claimed values 194, 196883 and `true`, and
`get_conjugacy_classes_count()` returns 194. -/
theorem char_table_info_amended :
    ∀ g : MonsterGroup,
      (g.get_character_table_info).1.map Prod.fst =
        ["irreducible_representations", "smallest_faithful_representation",
         "moonshine_connection", "j_invariant_coefficients"] ∧
      lookupCT (g.get_character_table_info).1 "irreducible_representations" =
        some (.int 194) ∧
      lookupCT (g.get_character_table_info).1
          "smallest_faithful_representation" = some (.int 196883) ∧
      lookupCT (g.get_character_table_info).1 "moonshine_connection" =
        some (.bool true) ∧
      lookupCT (g.get_character_table_info).1 "j_invariant_coefficients" =
        some (.coeffList [.coeff 196884, .coeff 21493760, .coeff 864299970,
          .ellipsis]) ∧
      (g.get_conjugacy_classes_count).1 = 194 :=
  fun _ => ⟨rfl, rfl, rfl, rfl, rfl, rfl⟩

/-! ## Purity / idempotence (C9) -/

/-- C9: every query method of `MonsterGroup` leaves the instance state
unchanged, and calling it twice on the same instance yields the identical
result. -/
theorem query_methods_pure :
    ∀ g : MonsterGroup,
      ((g.order).2 = g ∧ ((g.order).2.order).1 = (g.order).1) ∧
      ((g.nameProp).2 = g ∧ ((g.nameProp).2.nameProp).1 = (g.nameProp).1) ∧
      ((g.symbolProp).2 = g ∧
        ((g.symbolProp).2.symbolProp).1 = (g.symbolProp).1) ∧
      ((g.is_sporadic).2 = g ∧
        ((g.is_sporadic).2.is_sporadic).1 = (g.is_sporadic).1) ∧
      ((g.is_simple).2 = g ∧
        ((g.is_simple).2.is_simple).1 = (g.is_simple).1) ∧
      ((g.get_factorization).2 = g ∧
        ((g.get_factorization).2.get_factorization).1 =
          (g.get_factorization).1) ∧
      ((g.verify_order).2 = g ∧
        ((g.verify_order).2.verify_order).1 = (g.verify_order).1) ∧
      ((g.get_maximal_subgroups_info).2 = g ∧
        ((g.get_maximal_subgroups_info).2.get_maximal_subgroups_info).1 =
          (g.get_maximal_subgroups_info).1) ∧
      ((g.get_conjugacy_classes_count).2 = g ∧
        ((g.get_conjugacy_classes_count).2.get_conjugacy_classes_count).1 =
          (g.get_conjugacy_classes_count).1) ∧
      ((g.get_character_table_info).2 = g ∧
        ((g.get_character_table_info).2.get_character_table_info).1 =
          (g.get_character_table_info).1) :=
  fun _ => ⟨⟨rfl, rfl⟩, ⟨rfl, rfl⟩, ⟨rfl, rfl⟩, ⟨rfl, rfl⟩, ⟨rfl, rfl⟩,
    ⟨rfl, rfl⟩, ⟨rfl, rfl⟩, ⟨rfl, rfl⟩, ⟨rfl, rfl⟩, ⟨rfl, rfl⟩⟩

/-! ## Heap-level model of dict allocation (C10)

Python's `get_factorization` body is a dict literal, so every call allocates
a fresh dict object.  To reason about aliasing we refine the method to a
small heap of dict objects: a call allocates a new cell holding the fixed
table and returns its address; a caller may later mutate any previously
returned dict in place. -/

/-- A heap of factorization-dict objects: cell `i` holds the current entries
of the `i`-th allocated dict. -/
structure Heap where
  cells : List (List (ℕ × ℕ))
deriving DecidableEq

/-- Allocate a fresh dict with contents `v`; returns its address. -/
def Heap.alloc (h : Heap) (v : List (ℕ × ℕ)) : ℕ × Heap :=
  (h.cells.length, ⟨h.cells ++ [v]⟩)

/-- Dereference the dict at address `a`. -/
def Heap.read (h : Heap) (a : ℕ) : List (ℕ × ℕ) :=
  h.cells.getD a []

/-- Mutate in place the dict at address `a` (covers adding, removing or
changing entries: `v` is the dict's new contents). -/
def Heap.write (h : Heap) (a : ℕ) (v : List (ℕ × ℕ)) : Heap :=
  ⟨h.cells.set a v⟩

/-- `get_factorization` at heap level: allocates a fresh dict holding the
fixed table (the method body is a dict literal). -/
def get_factorization_alloc (h : Heap) : ℕ × Heap :=
  h.alloc factorizationTable

/-- `verify_order` at heap level: folds the product over the dict returned
by its own `get_factorization()` call and compares with `ORDER`. -/
def verify_order_alloc (h : Heap) : Bool × Heap :=
  let r := get_factorization_alloc h
  ((r.2.read r.1).foldl (fun acc pe => acc * pe.1 ^ pe.2) 1 == ORDER, r.2)

/-- Reading a freshly allocated cell returns exactly what was allocated. -/
theorem Heap.read_alloc (h : Heap) (v : List (ℕ × ℕ)) :
    (h.alloc v).2.read (h.alloc v).1 = v := by
  simp [Heap.alloc, Heap.read]

/-- The fixed table's product, folded as `verify_order` folds it, is the
stored order literal. -/
theorem monster_table_foldl :
    factorizationTable.foldl (fun acc pe => acc * pe.1 ^ pe.2) 1 = ORDER := by
  decide

/-- C10: `get_factorization()` allocates a fresh dict on every call, so
whatever in-place mutation is applied to any previously returned dict (any
address `a`, any new contents `v`, over any heap state `h`), a later
`get_factorization()` call still yields the fixed table and a later
`verify_order()` call still returns `True`. -/
theorem get_factorization_fresh :
    ∀ (h : Heap) (a : ℕ) (v : List (ℕ × ℕ)),
      ((get_factorization_alloc (h.write a v)).2.read
          (get_factorization_alloc (h.write a v)).1 = factorizationTable) ∧
      (verify_order_alloc (h.write a v)).1 = true ∧
      ((get_factorization_alloc h).2.read (get_factorization_alloc h).1 =
        factorizationTable) ∧
      (verify_order_alloc h).1 = true := by
  intro h a v
  refine ⟨Heap.read_alloc _ _, ?_, Heap.read_alloc _ _, ?_⟩ <;>
  · simp only [verify_order_alloc, get_factorization_alloc]
    rw [Heap.read_alloc, monster_table_foldl]
    decide

/-! ## `format_large_number` (`monster_utils.py`) -/

/-- Decimal rendering of a natural number (`Nat.toDigits 10`), the digit
string Python produces for a non-negative int. -/
def natStr (n : ℕ) : String :=
  (Nat.toDigits 10 n).asString

/-- Insert a comma after every third character of a reversed digit list:
the thousands grouping of Python's `f"{n:,}"`, working from the least
significant digit. -/
def groupRev : List Char → List Char
  | c1 :: c2 :: c3 :: c4 :: rest => c1 :: c2 :: c3 :: ',' :: groupRev (c4 :: rest)
  | l => l

/-- Python `f"{n:,}"` on an int: the decimal digits of `|n|` grouped in
threes by commas from the right, with a leading minus sign when negative. -/
def commaFormat (n : ℤ) : String :=
  (if n < 0 then "-" else "") ++
    ((groupRev (Nat.toDigits 10 n.natAbs).reverse).reverse).asString

/-- Two-digit zero-padded rendering of `m < 100`, for the two decimal places
of the mantissa. -/
def pad2 (m : ℕ) : String :=
  if m < 10 then "0" ++ natStr m else natStr m

/-- `format_large_number`: comma grouping plus a parenthesized scientific
part.  For `n > 0` the source computes `exponent = int(math.log10(n))` and
`mantissa = n / 10**exponent` in IEEE floating point and renders the
mantissa with `f"{mantissa:.2f}"`; that branch is modelled here with exact
integer arithmetic (floor log base 10, half-up rounding to two decimals) and
is outside the claims proved below, which concern only `n ≤ 0`, where the
source is float-free: `scientific = "0"`. -/
def format_large_number (n : ℤ) : String :=
  let formatted := commaFormat n
  let scientific :=
    if 0 < n then
      let exponent := Nat.log 10 n.toNat
      let m100 := (n.toNat * 100 + 10 ^ exponent / 2) / 10 ^ exponent
      natStr (m100 / 100) ++ "." ++ pad2 (m100 % 100) ++ " × 10^" ++
        natStr exponent
    else "0"
  formatted ++ " (≈ " ++ scientific ++ ")"

/-- `Nat.digitChar` never produces a comma: each of its sixteen digit
branches is a digit or letter character, and the fallback is `'*'`. -/
theorem digitChar_ne_comma : ∀ m : ℕ, (Nat.digitChar m == ',') = false
  | 0 => rfl
  | 1 => rfl
  | 2 => rfl
  | 3 => rfl
  | 4 => rfl
  | 5 => rfl
  | 6 => rfl
  | 7 => rfl
  | 8 => rfl
  | 9 => rfl
  | 10 => rfl
  | 11 => rfl
  | 12 => rfl
  | 13 => rfl
  | 14 => rfl
  | 15 => rfl
  | (_ + 16) => rfl

/-- `Nat.toDigitsCore` over a comma-free accumulator is comma-free. -/
theorem toDigitsCore_comma_free (b : ℕ) :
    ∀ (f n : ℕ) (l : List Char), l.all (fun c => !(c == ',')) →
      (Nat.toDigitsCore b f n l).all (fun c => !(c == ',')) := by
  intro f
  induction f with
  | zero => intro n l hl; simpa [Nat.toDigitsCore] using hl
  | succ f ih =>
    intro n l hl
    rw [Nat.toDigitsCore]
    have hcons : (Nat.digitChar (n % b) :: l).all (fun c => !(c == ',')) := by
      simp only [List.all_cons, hl, digitChar_ne_comma, Bool.not_false,
        Bool.and_true]
    split
    · exact hcons
    · exact ih (n / b) _ hcons

/-- The decimal digit list of a natural number contains no comma. -/
theorem toDigits_comma_free (n : ℕ) :
    (Nat.toDigits 10 n).all (fun c => !(c == ',')) :=
  toDigitsCore_comma_free 10 (n + 1) n [] rfl

/-- `groupRev` only inserts commas: filtering the commas away undoes it. -/
theorem groupRev_filter :
    ∀ l : List Char, (groupRev l).filter (fun c => !(c == ',')) =
      l.filter (fun c => !(c == ','))
  | [] => rfl
  | [_] => rfl
  | [_, _] => rfl
  | [_, _, _] => rfl
  | c1 :: c2 :: c3 :: c4 :: rest => by
    have ih := groupRev_filter (c4 :: rest)
    simp [groupRev, List.filter_cons, ih]

/-- Removing the commas from `commaFormat n` leaves the sign and the plain
decimal digits of `|n|`. -/
theorem commaFormat_strips (n : ℤ) :
    (commaFormat n).data.filter (fun c => !(c == ',')) =
      (if n < 0 then ['-'] else []) ++ Nat.toDigits 10 n.natAbs := by
  have hfree := toDigits_comma_free n.natAbs
  have hself : (Nat.toDigits 10 n.natAbs).filter (fun c => !(c == ',')) =
      Nat.toDigits 10 n.natAbs :=
    List.filter_eq_self.mpr (fun a ha => (List.all_eq_true.mp hfree) a ha)
  unfold commaFormat
  rw [String.data_append]
  rw [List.filter_append]
  have hdigits : ((groupRev (Nat.toDigits 10 n.natAbs).reverse).reverse
        |>.asString).data.filter (fun c => !(c == ',')) =
      Nat.toDigits 10 n.natAbs := by
    show ((groupRev (Nat.toDigits 10 n.natAbs).reverse).reverse).filter
        (fun c => !(c == ',')) = Nat.toDigits 10 n.natAbs
    rw [List.filter_reverse, groupRev_filter, List.filter_reverse,
      List.reverse_reverse, hself]
  rw [hdigits]
  by_cases hn : n < 0
  · rw [if_pos hn, if_pos hn]; rfl
  · rw [if_neg hn, if_neg hn]; rfl

/-- C7: on non-positive input `format_large_number` does not fail — it
returns the comma-grouped rendering of `n` followed by the degenerate
scientific part, the literal `"0"`; and the comma-grouped part really is a
grouping of the decimal rendering of `n` (removing its commas yields the
sign and the plain digits of `|n|`). -/
theorem format_large_number_nonpositive (n : ℤ) (h : n ≤ 0) :
    format_large_number n = commaFormat n ++ " (≈ 0)" ∧
    (commaFormat n).data.filter (fun c => !(c == ',')) =
      (if n < 0 then ['-'] else []) ++ Nat.toDigits 10 n.natAbs := by
  constructor
  · unfold format_large_number
    rw [if_neg (by omega), String.append_assoc, String.append_assoc]
    rfl
  · exact commaFormat_strips n

/-- Witness for C7 at `n = -1234567` (and the degenerate `n = 0`): both
hypotheses discharged concretely, with the full output strings evaluated. -/
theorem format_large_number_nonpositive_witness :
    format_large_number (-1234567) = "-1,234,567 (≈ 0)" ∧
    format_large_number 0 = "0 (≈ 0)" := by
  have h1 := (format_large_number_nonpositive (-1234567) (by decide)).1
  have h0 := (format_large_number_nonpositive 0 (by decide)).1
  rw [h1, h0]
  exact ⟨rfl, rfl⟩

/-! ## `compare_group_orders` (`monster_utils.py`) -/

/-- The description attached to a comparison entry.  The source renders
`timesLarger`/`timesSmaller` as `"Monster is {ratio:.2e} times larger"` /
`"... times smaller"` with the ratio formatted from a float, and
`sameAsMonster` as the literal string `"Same as Monster"`; the numeric ratio
is carried here as an exact rational. -/
inductive ComparisonDesc where
  | timesLarger (q : ℚ)
  | sameAsMonster
  | timesSmaller (q : ℚ)
deriving DecidableEq

/-- The fixed reference groups, flattened in the source's iteration order:
the symmetric-group dict, then the sporadic-group dict. -/
def comparisonGroups : List (String × ℕ) :=
  [("S_5", Nat.factorial 5),
   ("S_10", Nat.factorial 10),
   ("S_20", Nat.factorial 20),
   ("Mathieu M_24", 244823040),
   ("Conway Co_1", 4157776806543360000),
   ("Baby Monster B", 4154781481226426191177580544000000),
   ("Monster M", ORDER)]

/-- `compare_group_orders`: for each reference group, compute
`ratio = monster_order / order` (the source guards the equal case to the
exact integer 1 and otherwise divides in floating point; the division is
modelled as exact rational division, which classifies every entry of the
fixed table identically since every unequal ratio here exceeds `10^19`), and
classify by the three-way rule of the source. -/
def compare_group_orders : List (String × ℕ × ComparisonDesc) :=
  let monster_order := ORDER
  comparisonGroups.map (fun g =>
    let q : ℚ := if g.2 ≠ monster_order then (monster_order : ℚ) / g.2 else 1
    let desc : ComparisonDesc :=
      if 1 < q then .timesLarger q
      else if q = 1 then .sameAsMonster
      else .timesSmaller (1 / q)
    (g.1, g.2, desc))

/-- Evaluation of `compare_group_orders` on the fixed table: every
reference group but the Monster itself is strictly smaller, so each is
classified "times larger"; the Monster entry hits the exact-1 guard. -/
theorem compare_group_orders_eq :
    compare_group_orders =
      [("S_5", 120, .timesLarger ((ORDER : ℚ) / 120)),
       ("S_10", 3628800, .timesLarger ((ORDER : ℚ) / 3628800)),
       ("S_20", 2432902008176640000,
         .timesLarger ((ORDER : ℚ) / 2432902008176640000)),
       ("Mathieu M_24", 244823040, .timesLarger ((ORDER : ℚ) / 244823040)),
       ("Conway Co_1", 4157776806543360000,
         .timesLarger ((ORDER : ℚ) / 4157776806543360000)),
       ("Baby Monster B", 4154781481226426191177580544000000,
         .timesLarger ((ORDER : ℚ) / 4154781481226426191177580544000000)),
       ("Monster M", ORDER, .sameAsMonster)] := by
  unfold compare_group_orders comparisonGroups
  norm_num [ORDER, Nat.factorial]

/-- C4: `compare_group_orders()` returns its triples in the fixed input
order with the fixed names and orders; every entry is classified by the
three-way rule (order below the Monster's → "times larger" with ratio
`ORDER/order`, equal → "Same as Monster", above → "times smaller"); and the
"Monster M" entry carries order `ORDER` and exactly the same-as-Monster
description (ratio exactly 1). -/
theorem compare_group_orders_spec :
    compare_group_orders.map (fun e => (e.1, e.2.1)) =
      [("S_5", 120), ("S_10", 3628800), ("S_20", 2432902008176640000),
       ("Mathieu M_24", 244823040), ("Conway Co_1", 4157776806543360000),
       ("Baby Monster B", 4154781481226426191177580544000000),
       ("Monster M", ORDER)] ∧
    ("Monster M", ORDER, ComparisonDesc.sameAsMonster) ∈
      compare_group_orders ∧
    (∀ e ∈ compare_group_orders,
      e.2.2 = if e.2.1 < ORDER then .timesLarger ((ORDER : ℚ) / e.2.1)
        else if e.2.1 = ORDER then .sameAsMonster
        else .timesSmaller ((e.2.1 : ℚ) / ORDER)) := by
  refine ⟨?_, ?_, ?_⟩
  · rw [compare_group_orders_eq]; rfl
  · rw [compare_group_orders_eq]; simp
  · rw [compare_group_orders_eq]
    intro e he
    fin_cases he <;> norm_num [ORDER]

/-- Witness for C4: the membership hypothesis of the classification clause
discharged at the concrete `"S_5"` entry of the returned list. -/
theorem compare_group_orders_spec_witness :
    (("S_5", (120 : ℕ),
        ComparisonDesc.timesLarger ((ORDER : ℚ) / 120)) :
          String × ℕ × ComparisonDesc).2.2 =
      (if (120 : ℕ) < ORDER then
          ComparisonDesc.timesLarger ((ORDER : ℚ) / 120)
        else if (120 : ℕ) = ORDER then ComparisonDesc.sameAsMonster
        else ComparisonDesc.timesSmaller ((120 : ℚ) / ORDER)) :=
  compare_group_orders_spec.2.2
    ("S_5", 120, ComparisonDesc.timesLarger ((ORDER : ℚ) / 120))
    (by rw [compare_group_orders_eq]; exact List.mem_cons_self _ _)

/-! ## `analyze_factorization` (`monster_utils.py`) -/

/-- Insert a (prime, exponent) pair into a key-sorted list. -/
def insertPair (pe : ℕ × ℕ) : List (ℕ × ℕ) → List (ℕ × ℕ)
  | [] => [pe]
  | q :: qs => if pe.1 ≤ q.1 then pe :: q :: qs else q :: insertPair pe qs

/-- Python's `sorted` on the dict items (tuples compare lexicographically;
the keys here are distinct, so only the key matters), as insertion sort. -/
def sortPairs : List (ℕ × ℕ) → List (ℕ × ℕ)
  | [] => []
  | pe :: rest => insertPair pe (sortPairs rest)

/-- The data printed by `analyze_factorization`, gathered into a record:
one field per printed fact, in the order the source prints them.  The
source computes each `percentage` as `(contribution / total_order) * 100`
in floating point and prints it with `f"{percentage:.10f}"`; the value is
modelled as the exact rational and the printed fraction width is recorded
in `percentFractionDigits`. -/
structure FactorizationReport where
  factorizationLine : String
  distinctPrimeCount : ℕ
  largestPrime : ℕ
  highestPower : ℕ
  highestPowerPrime : ℕ
  contributions : List (ℕ × ℕ × ℕ × ℚ)
  percentFractionDigits : ℕ

/-- `analyze_factorization`: renders the factorization per prime as `p` for
exponent 1 and `p^e` otherwise, joined by `" × "` over the key-sorted items;
counts the distinct primes (`len`); takes the largest prime (`max` over the
non-empty key list, modelled as a fold) and the highest power with the first
prime attaining it; and lists, per prime in ascending key order, the
contribution `prime ** power` and its percentage of the total order. -/
def analyze_factorization : FactorizationReport :=
  let factorization := factorizationTable
  let total_order := ORDER
  let factors := (sortPairs factorization).map (fun pe =>
    if pe.2 = 1 then natStr pe.1 else natStr pe.1 ++ "^" ++ natStr pe.2)
  let maxPower := (factorization.map Prod.snd).foldl Nat.max 0
  { factorizationLine := String.intercalate " × " factors
    distinctPrimeCount := factorization.length
    largestPrime := (factorization.map Prod.fst).foldl Nat.max 0
    highestPower := maxPower
    highestPowerPrime :=
      ((factorization.filter (fun pe => pe.2 == maxPower)).map Prod.fst).headD 0
    contributions := (sortPairs factorization).map (fun pe =>
      (pe.1, pe.2, pe.1 ^ pe.2, ((pe.1 ^ pe.2 : ℕ) : ℚ) / total_order * 100))
    percentFractionDigits := 10 }

/-- C8: the analysis renders the factorization as
`2^46 × 3^20 × ... × 71` (bare `p` exactly when the exponent is 1, primes
ascending); reports 15 distinct primes, largest prime 71, highest power 46
attained by prime 2 (the unique such prime); lists per prime, in ascending
order, the contribution `p ** e` (evaluated below) with its percentage
`contribution / order * 100` of the total order; and formats percentages
with 10 (≥ 10) fractional digits. -/
theorem analyze_factorization_report :
    analyze_factorization.factorizationLine =
      "2^46 × 3^20 × 5^9 × 7^6 × 11^2 × 13^3 × 17 × 19 × 23 × 29 × 31 × 41 × 47 × 59 × 71" ∧
    analyze_factorization.distinctPrimeCount = 15 ∧
    analyze_factorization.largestPrime = 71 ∧
    analyze_factorization.highestPower = 46 ∧
    analyze_factorization.highestPowerPrime = 2 ∧
    (factorizationTable.filter (fun pe => pe.2 == 46)).map Prod.fst = [2] ∧
    analyze_factorization.contributions.map (fun c => (c.1, c.2.1, c.2.2.1)) =
      [(2, 46, 70368744177664), (3, 20, 3486784401), (5, 9, 1953125),
       (7, 6, 117649), (11, 2, 121), (13, 3, 2197), (17, 1, 17), (19, 1, 19),
       (23, 1, 23), (29, 1, 29), (31, 1, 31), (41, 1, 41), (47, 1, 47),
       (59, 1, 59), (71, 1, 71)] ∧
    analyze_factorization.contributions.map (fun c => c.2.2.2) =
      analyze_factorization.contributions.map
        (fun c => ((c.2.2.1 : ℕ) : ℚ) / ORDER * 100) ∧
    10 ≤ analyze_factorization.percentFractionDigits := by
  refine ⟨by decide, rfl, rfl, rfl, rfl, by decide, by decide, rfl,
    by decide⟩

end Monster
